import Mathlib

/-
Shallow embedding of the supabase-news-processer pipeline:
  src/Insert_news.py          (ingestion: map_json_to_db, process_json_files)
  src/update_news.py          (preview refresh: get_news_records, update_describe_text,
                               batch_update_describe_text)
  src/update_ai_summarizer.py (enrichment: get_news_records, update_ai_summary,
                               batch_update_ai_summary)
External collaborators (the supabase store, the OpenAI completion endpoint and the
pydantic JSON validator) are modelled as explicit environments of fallible functions;
everything the repository's own code decides is embedded directly.
-/

set_option autoImplicit false

/-- Abstraction of the Python values that can sit in a record field: `None`,
a string, a number, or any other object (dict, list, ...) carrying only its
truthiness. This is all the source code ever inspects of a field. -/
inductive PyVal where
  | pyNone
  | pyStr (s : String)
  | pyNum (n : Int)
  | pyObj (truthy : Bool)
deriving DecidableEq, Repr

/-- Python truthiness: `None` and `0` and the empty string are falsy; other
objects carry their own truthiness (e.g. an empty dict is falsy). -/
def PyVal.isTruthy : PyVal → Bool
  | .pyNone => false
  | .pyStr s => decide (s ≠ "")
  | .pyNum n => decide (n ≠ 0)
  | .pyObj b => b

/-- Python `isinstance(v, str)`. -/
def PyVal.isStr : PyVal → Bool
  | .pyStr _ => true
  | _ => false

/-- The string held by a string value (only consulted after an `isinstance` guard). -/
def PyVal.asStr : PyVal → String
  | .pyStr s => s
  | _ => ""

/-- Python `s.strip()`: drop leading and trailing whitespace characters. -/
def pyStrip (s : String) : String :=
  String.mk (((s.data.dropWhile Char.isWhitespace).reverse.dropWhile Char.isWhitespace).reverse)

/-- The guard used identically in Insert_news.py:38/41, update_news.py:66/69 and
update_ai_summarizer.py:135/137: `v and isinstance(v, str) and v.strip()` —
the value is a string that is non-empty after stripping whitespace. -/
def nonBlankStr (v : PyVal) : Bool :=
  v.isTruthy && v.isStr && decide (pyStrip v.asStr ≠ "")

/-- The truncation expression of Insert_news.py:40 and update_news.py:68:
`article[:200] if len(article) > 200 else article`. -/
def pyTruncate (s : String) : String :=
  if s.length > 200 then s.take 200 else s

/-- The preview derivation rule, embedded from the textually identical blocks at
Insert_news.py:38-46 (inside map_json_to_db) and update_news.py:66-75 (inside
update_describe_text): prefer a non-blank string `article` truncated to 200
characters, else a non-blank string `text` untruncated, else `None`. -/
def derive_preview (article text : PyVal) : Option String :=
  if nonBlankStr article then Option.some (pyTruncate article.asStr)
  else if nonBlankStr text then Option.some text.asStr
  else Option.none

/-- Content selection of the enrichment path, update_ai_summarizer.py:134-141:
prefer a non-blank string `article` in full, else a non-blank string `text`,
else nothing (the record is not processed). -/
def choose_content (article text : PyVal) : Option String :=
  if nonBlankStr article then Option.some article.asStr
  else if nonBlankStr text then Option.some text.asStr
  else Option.none

/-- The pydantic model MetaArticle (update_ai_summarizer.py:43-48): five optional
string fields, each defaulting to `None`. `model_dump` of a validated instance
is the instance itself in this embedding. -/
structure MetaArticle where
  author : Option String := Option.none
  title : Option String := Option.none
  type : Option String := Option.none
  published_date : Option String := Option.none
  tags : Option String := Option.none
deriving DecidableEq, Repr

/-- The `update_data` dict built at update_ai_summarizer.py:158-161 and sent to
the store. -/
structure UpdateData where
  summarizer : String
  meta_filter : MetaArticle
deriving DecidableEq, Repr

/-- A row fetched from the News table: the projection id/article/text/metadata
selected at update_ai_summarizer.py:56 (the preview path selects id/article/text
only and ignores metadata). -/
structure Record where
  id : PyVal
  article : PyVal
  text : PyVal
  metadata : PyVal
deriving DecidableEq, Repr

/-- Environment of the enrichment path's external collaborators: the two
completion calls (each returning `(reasoning_content, content)` or raising),
pydantic's `MetaArticle.model_validate_json`, and the store update. -/
structure Env where
  summarizeRes : String → Except String (String × String)
  extractRes : PyVal → Except String (String × String)
  validateMeta : String → Except String MetaArticle
  updateRes : PyVal → UpdateData → Except String Unit

/-- Observable outcome of one `update_ai_summary` call: which completion calls
were issued, which string (if any) was handed to `model_validate_json`, the
payload of the store update if one was issued, and the Python return value. -/
structure RunResult where
  calledSummarize : Bool
  calledExtract : Bool
  validatedInput : Option String
  updateIssued : Option UpdateData
  ok : Bool
deriving DecidableEq, Repr

/-- update_ai_summarizer.py:122-179, `update_ai_summary(record)`.
Control flow embedded step by step: missing id returns False (line 130-132);
content selection (134-141) returns False when nothing is selectable; the
summarize call (145) and the extract call (149) propagate service failure to
the outer `except` which returns False; the validation (152-155) is applied to
`reasoning_meta` and its failure is caught and only logged, which leaves the
local `meta_data` unbound, so building `update_data` (158-161) raises
`NameError` — caught by the outer `except`, returning False with no store
write; otherwise the update is issued (163-168) and the store's error flag
decides the return value. -/
def update_ai_summary (env : Env) (record : Record) : RunResult :=
  if record.id.isTruthy = false then
    { calledSummarize := false, calledExtract := false, validatedInput := Option.none,
      updateIssued := Option.none, ok := false }
  else
    match choose_content record.article record.text with
    | Option.none =>
      { calledSummarize := false, calledExtract := false, validatedInput := Option.none,
        updateIssued := Option.none, ok := false }
    | Option.some content =>
      match env.summarizeRes content with
      | .error _ =>
        { calledSummarize := true, calledExtract := false, validatedInput := Option.none,
          updateIssued := Option.none, ok := false }
      | .ok (_, ai_summary) =>
        match env.extractRes record.metadata with
        | .error _ =>
          { calledSummarize := true, calledExtract := true, validatedInput := Option.none,
            updateIssued := Option.none, ok := false }
        | .ok (reasoning_meta, _) =>
          match env.validateMeta reasoning_meta with
          | .error _ =>
            { calledSummarize := true, calledExtract := true,
              validatedInput := Option.some reasoning_meta,
              updateIssued := Option.none, ok := false }
          | .ok meta_data =>
            match env.updateRes record.id { summarizer := ai_summary, meta_filter := meta_data } with
            | .error _ =>
              { calledSummarize := true, calledExtract := true,
                validatedInput := Option.some reasoning_meta,
                updateIssued := Option.some { summarizer := ai_summary, meta_filter := meta_data },
                ok := false }
            | .ok _ =>
              { calledSummarize := true, calledExtract := true,
                validatedInput := Option.some reasoning_meta,
                updateIssued := Option.some { summarizer := ai_summary, meta_filter := meta_data },
                ok := true }

/-- get_news_records (update_ai_summarizer.py:50-75 and, identically except for
the selected columns, update_news.py:27-52): the store is modelled as the list
of rows it would return in default order; `if limit: query = query.limit(limit)`
applies the limit only when `limit` is truthy, so `None` and `0` both leave the
candidate set unbounded. -/
def get_news_records (db : List Record) (limit : Option Nat) : List Record :=
  match limit with
  | Option.none => db
  | Option.some n => if n = 0 then db else db.take n

/-- The success/failure tally loop shared by all three batch drivers:
`if ok: processed_count += 1 else: error_count += 1` over the items in order. -/
def tallyFold {α : Type} (p : α → Bool) (l : List α) : Nat × Nat :=
  l.foldl (fun acc x => if p x then (acc.1 + 1, acc.2) else (acc.1, acc.2 + 1)) (0, 0)

/-- Sum of a `(processed_count, error_count)` tally. -/
def tallyTotal (t : Nat × Nat) : Nat := t.1 + t.2

/-- batch_update_ai_summary (update_ai_summarizer.py:181-204): fetch candidates,
return (0, 0) when none, else tally `update_ai_summary` over each record. -/
def batch_update_ai_summary (env : Env) (db : List Record) (limit : Option Nat) : Nat × Nat :=
  let records := get_news_records db limit
  if records.isEmpty then (0, 0)
  else tallyFold (fun r => (update_ai_summary env r).ok) records

/-- Environment of the preview-refresh path: the store update of
update_news.py:78-83, keyed by id with payload the derived describe_text. -/
structure PrevEnv where
  updateRes : PyVal → Option String → Except String Unit

/-- Observable outcome of one `update_describe_text` call: the describe_text
payload of the store update if one was issued, and the Python return value. -/
structure PreviewResult where
  updateIssued : Option (Option String)
  ok : Bool
deriving DecidableEq, Repr

/-- update_news.py:54-94, `update_describe_text(record)`: missing id returns
False; otherwise the preview rule is applied (66-75, with `None` written when
neither field qualifies) and the update is always issued; the store's error
flag decides the return value. -/
def update_describe_text (env : PrevEnv) (record : Record) : PreviewResult :=
  if record.id.isTruthy = false then { updateIssued := Option.none, ok := false }
  else
    let dt := derive_preview record.article record.text
    match env.updateRes record.id dt with
    | .error _ => { updateIssued := Option.some dt, ok := false }
    | .ok _ => { updateIssued := Option.some dt, ok := true }

/-- batch_update_describe_text (update_news.py:96-123): fetch candidates,
return (0, 0) when none, else tally `update_describe_text` over each record. -/
def batch_update_describe_text (env : PrevEnv) (db : List Record) (limit : Option Nat) : Nat × Nat :=
  let records := get_news_records db limit
  if records.isEmpty then (0, 0)
  else tallyFold (fun r => (update_describe_text env r).ok) records

/-- The fields of a raw scraped document that map_json_to_db reads
(`Option.none` means the key is absent from the JSON object). -/
structure RawDoc where
  article : Option PyVal := Option.none
  text : Option PyVal := Option.none
  meta : Option PyVal := Option.none
  html : Option PyVal := Option.none
  images : Option PyVal := Option.none
  links : Option PyVal := Option.none
  title : Option PyVal := Option.none
  url : Option PyVal := Option.none
  host : Option PyVal := Option.none
  wordCount : Option PyVal := Option.none

/-- A parsed JSON document as seen by map_json_to_db: either a JSON object
(on which `.get` works) or some other JSON value (a list, a scalar), on which
`json_data.get(...)` raises `AttributeError`. -/
inductive Parsed where
  | dict (d : RawDoc)
  | nonDict

/-- Python `d.get(k)`: `None` when the key is absent. -/
def pyGet (f : Option PyVal) : PyVal := f.getD PyVal.pyNone

/-- Python `d.get(k, default)`. -/
def pyGetD (f : Option PyVal) (d : PyVal) : PyVal := f.getD d

/-- Abstract stand-in for `json.dumps` on the metadata blob; no claim depends
on the serialized text, only on whether serialization happens. -/
def pyDumps : PyVal → String
  | .pyNone => "null"
  | .pyStr s => s
  | .pyNum n => toString n
  | .pyObj _ => "object"

/-- The `db_data` dict built at Insert_news.py:48-60. -/
structure DbData where
  text : PyVal
  metadata : Option String
  html : PyVal
  images : PyVal
  links : PyVal
  title : PyVal
  url : PyVal
  article : PyVal
  host : PyVal
  word_count : PyVal
  describe_text : Option String

/-- Insert_news.py:30-65, `map_json_to_db(json_data)`: on a non-dict document
every `.get` raises and the error propagates to the caller; on a dict the
preview rule (38-46) and the field mapping (48-60) are applied, the metadata
blob being serialized only when truthy and the image/link lists defaulting to
an empty (falsy) list. -/
def map_json_to_db : Parsed → Except String DbData
  | .nonDict => .error ("AttributeError")
  | .dict d =>
    .ok
      { text := pyGet d.text,
        metadata :=
          if (pyGet d.meta).isTruthy then Option.some (pyDumps (pyGetD d.meta (PyVal.pyObj false)))
          else Option.none,
        html := pyGet d.html,
        images := pyGetD d.images (PyVal.pyObj false),
        links := pyGetD d.links (PyVal.pyObj false),
        title := pyGet d.title,
        url := pyGet d.url,
        article := pyGet d.article,
        host := pyGet d.host,
        word_count := pyGet d.wordCount,
        describe_text := derive_preview (pyGet d.article) (pyGet d.text) }

/-- One file of the input directory, by what the per-file steps of
process_json_files observe: the `os.path.exists` check, the outcome of reading
and JSON-decoding it, and the store insert's outcome per payload. -/
structure FileEntry where
  fsExists : Bool
  parsed : Except String Parsed
  insertRes : DbData → Except String Unit

/-- The body of the per-file loop of Insert_news.py:80-132: every failing step
(missing file, unreadable/undecodable content, mapping error, insert error or
exception) logs, counts one failure and continues; only a clean insert counts
a success. -/
def process_one_file (f : FileEntry) : Bool :=
  if f.fsExists = false then false
  else
    match f.parsed with
    | .error _ => false
    | .ok p =>
      match map_json_to_db p with
      | .error _ => false
      | .ok dbData =>
        match f.insertRes dbData with
        | .error _ => false
        | .ok _ => true

/-- process_json_files (Insert_news.py:67-139): (0, 0) for an empty directory,
else the per-file success/failure tally over every file in order. -/
def process_json_files (files : List FileEntry) : Nat × Nat :=
  if files.isEmpty then (0, 0)
  else tallyFold process_one_file files

/-- Concrete enrichment environment in which both completion calls succeed but
pydantic validation raises (the metadata payload is not valid JSON). -/
def envC1 : Env :=
  { summarizeRes := fun _ => .ok (("reasoning"), ("短摘要")),
    extractRes := fun _ => .ok (("not json"), ("payload")),
    validateMeta := fun _ => .error ("pydantic validation error"),
    updateRes := fun _ _ => .ok () }

/-- Concrete record with id and a non-blank article. -/
def recC1 : Record :=
  { id := PyVal.pyStr ("1"), article := PyVal.pyStr ("正文内容"),
    text := PyVal.pyNone, metadata := PyVal.pyObj true }

/-- Concrete enrichment environment whose extract call returns the reasoning
trace RTRACE and the answer payload PAYLOAD, with everything succeeding. -/
def envC2 : Env :=
  { summarizeRes := fun _ => .ok (("r"), ("S")),
    extractRes := fun _ => .ok (("RTRACE"), ("PAYLOAD")),
    validateMeta := fun _ => .ok ({}),
    updateRes := fun _ _ => .ok () }

/-- Concrete record with id and a non-blank article. -/
def recC2 : Record :=
  { id := PyVal.pyStr ("2"), article := PyVal.pyStr ("body"),
    text := PyVal.pyNone, metadata := PyVal.pyStr ("meta blob") }

/-- Concrete enrichment environment in which every collaborator succeeds. -/
def envC6 : Env :=
  { summarizeRes := fun _ => .ok (("r"), ("s")),
    extractRes := fun _ => .ok (("m"), ("j")),
    validateMeta := fun _ => .ok ({}),
    updateRes := fun _ _ => .ok () }

/-- Concrete record whose article is absent and whose text is whitespace only:
content selection yields nothing. -/
def recC6 : Record :=
  { id := PyVal.pyStr ("6"), article := PyVal.pyNone,
    text := PyVal.pyStr ("   "), metadata := PyVal.pyNone }

/-- A well-formed scraped document. -/
def goodRaw : RawDoc :=
  { article := Option.some (PyVal.pyStr ("An article body well beyond blank")),
    text := Option.some (PyVal.pyStr ("raw text")),
    title := Option.some (PyVal.pyStr ("T")) }

/-- A readable file holding a well-formed document, with a store that accepts
the insert. -/
def goodFile : FileEntry :=
  { fsExists := true, parsed := .ok (Parsed.dict goodRaw), insertRes := fun _ => .ok () }

/-- A readable file whose content fails JSON decoding. -/
def badSyntaxFile : FileEntry :=
  { fsExists := true, parsed := .error ("JSONDecodeError"), insertRes := fun _ => .ok () }

/-- Concrete enrichment environment in which every collaborator succeeds. -/
def envW : Env :=
  { summarizeRes := fun _ => .ok (("r"), ("summary")),
    extractRes := fun _ => .ok (("m"), ("j")),
    validateMeta := fun _ => .ok ({}),
    updateRes := fun _ _ => .ok () }

/-- First of two pending records. -/
def recW1 : Record :=
  { id := PyVal.pyStr ("a"), article := PyVal.pyStr ("A1"),
    text := PyVal.pyNone, metadata := PyVal.pyNone }

/-- Second of two pending records. -/
def recW2 : Record :=
  { id := PyVal.pyStr ("b"), article := PyVal.pyStr ("A2"),
    text := PyVal.pyNone, metadata := PyVal.pyNone }

/-- A store holding two pending records. -/
def dbW : List Record := [recW1, recW2]

/-- Concrete preview-refresh environment whose store accepts every update. -/
def prevEnvW : PrevEnv := { updateRes := fun _ _ => .ok () }

/-- Concrete record whose article is absent and whose text is numeric:
the preview rule derives nothing from it. -/
def recBlankW : Record :=
  { id := PyVal.pyStr ("10"), article := PyVal.pyNone,
    text := PyVal.pyNum 3, metadata := PyVal.pyNone }

/-- Unfolds the tally loop with an arbitrary starting accumulator. -/
theorem tallyFold_go {α : Type} (p : α → Bool) (l : List α) (a b : Nat) :
    l.foldl (fun acc x => if p x then (acc.1 + 1, acc.2) else (acc.1, acc.2 + 1)) (a, b) =
      (a + l.countP p, b + l.countP (fun x => !p x)) := by
  induction l generalizing a b with
  | nil => simp
  | cons x xs ih =>
    simp only [List.foldl_cons, List.countP_cons]
    cases hp : p x <;> simp [hp, ih] <;> omega

/-- The tally loop counts successes and failures of the items, in that order. -/
theorem tallyFold_eq {α : Type} (p : α → Bool) (l : List α) :
    tallyFold p l = (l.countP p, l.countP (fun x => !p x)) := by
  simpa [tallyFold] using tallyFold_go p l 0 0

/-- Every item contributes exactly one unit to the tally. -/
theorem tallyFold_total {α : Type} (p : α → Bool) (l : List α) :
    tallyTotal (tallyFold p l) = l.length := by
  rw [tallyFold_eq, tallyTotal]
  induction l with
  | nil => simp
  | cons x xs ih => cases hp : p x <;> simp [List.countP_cons, hp] <;> omega

/-- An enrichment batch accounts for exactly the candidate records it fetched. -/
theorem batch_ai_total (env : Env) (db : List Record) (limit : Option Nat) :
    tallyTotal (batch_update_ai_summary env db limit) = (get_news_records db limit).length := by
  unfold batch_update_ai_summary
  cases hrec : (get_news_records db limit).isEmpty with
  | true => simp [List.isEmpty_iff.mp hrec, tallyTotal]
  | false => simp [hrec, tallyFold_total]

/-- C1: the claimed partial-success law fails in the code. When both completion
calls succeed but the structured payload does not validate, update_ai_summary
leaves the local meta_data unbound, so building update_data raises and the
outer handler returns False: no store update is issued at all — the summary
短摘要 is discarded and the record counts as a hard failure, where the claim
says the update still carries the summary with the metadata omitted. -/
theorem c1_parse_failure_discards_summary :
    update_ai_summary envC1 recC1 =
      { calledSummarize := true, calledExtract := true,
        validatedInput := Option.some ("not json"),
        updateIssued := Option.none, ok := false } := by decide

/-- C2: the claim that the validated text is the answer payload fails in the
code. With the extract call returning reasoning trace RTRACE and answer payload
PAYLOAD, the string handed to MetaArticle.model_validate_json is RTRACE — the
reasoning trace, not the payload (update_ai_summarizer.py:153 parses
reasoning_meta where the claim designates meta_json). -/
theorem c2_reasoning_is_validated :
    (update_ai_summary envC2 recC2).validatedInput = Option.some ("RTRACE") ∧
    (update_ai_summary envC2 recC2).validatedInput ≠ Option.some ("PAYLOAD") ∧
    (update_ai_summary envC2 recC2).ok = true := by decide

/-- C3: for every string article that is non-blank after stripping, the preview
rule returns exactly the first 200 characters when the article is longer than
200 characters and the article unchanged otherwise, regardless of the text
argument. -/
theorem c3_article_preview (a : String) (t : PyVal) (h : pyStrip a ≠ "") :
    (a.length > 200 → derive_preview (PyVal.pyStr a) t = Option.some (a.take 200)) ∧
    (a.length ≤ 200 → derive_preview (PyVal.pyStr a) t = Option.some a) := by
  have ha : a ≠ "" := by
    intro e
    subst e
    exact h rfl
  have hsel : nonBlankStr (PyVal.pyStr a) = true := by
    simp [nonBlankStr, PyVal.isTruthy, PyVal.isStr, PyVal.asStr, ha, h]
  constructor
  · intro hl
    simp [derive_preview, hsel, pyTruncate, PyVal.asStr, hl]
  · intro hl
    have hnl : ¬ a.length > 200 := by omega
    simp [derive_preview, hsel, pyTruncate, PyVal.asStr, hnl]

set_option maxRecDepth 100000 in
/-- Witness for C3 at a 201-character article. -/
theorem c3_article_preview_witness :
    pyStrip (String.mk (List.replicate 201 ('a'))) ≠ "" ∧
    derive_preview (PyVal.pyStr (String.mk (List.replicate 201 ('a')))) PyVal.pyNone
      = Option.some ((String.mk (List.replicate 201 ('a'))).take 200) :=
  ⟨by decide,
    (c3_article_preview (String.mk (List.replicate 201 ('a'))) PyVal.pyNone (by decide)).1
      (by decide)⟩

/-- C4: whenever the article is absent, blank or not a string, the preview rule
returns the text unchanged if it is a non-blank string and nothing otherwise;
numeric values never qualify — they are treated as absent, not coerced. -/
theorem c4_nonarticle_fallback (a t : PyVal) (h : nonBlankStr a = false) :
    derive_preview a t = (if nonBlankStr t then Option.some t.asStr else Option.none) ∧
    (∀ n : Int, nonBlankStr (PyVal.pyNum n) = false) := by
  constructor
  · simp [derive_preview, h]
  · intro n
    simp [nonBlankStr, PyVal.isStr]

/-- Witness for C4 at a numeric article and a string text. -/
theorem c4_nonarticle_fallback_witness :
    nonBlankStr (PyVal.pyNum 42) = false ∧
    (derive_preview (PyVal.pyNum 42) (PyVal.pyStr ("T"))
        = (if nonBlankStr (PyVal.pyStr ("T")) then Option.some (PyVal.pyStr ("T")).asStr
           else Option.none) ∧
      (∀ n : Int, nonBlankStr (PyVal.pyNum n) = false)) :=
  ⟨by decide, c4_nonarticle_fallback (PyVal.pyNum 42) (PyVal.pyStr ("T")) (by decide)⟩

/-- C5: consistency law — for every (article, text) pair the enrichment content
selection and the preview derivation pick from the same field under the same
precedence: the preview is exactly the chosen content, truncated when (and only
when) it came from the article, and one yields nothing precisely when the other
does. -/
theorem c5_selection_consistency (a t : PyVal) :
    derive_preview a t
      = Option.map (fun c => if nonBlankStr a then pyTruncate c else c) (choose_content a t) ∧
    ((derive_preview a t).isSome ↔ (choose_content a t).isSome) := by
  cases ha : nonBlankStr a <;> cases ht : nonBlankStr t <;>
    simp [derive_preview, choose_content, ha, ht]

/-- C6 counterexample: a record whose content selection yields nothing is
counted in the batch's failure tally — a batch over exactly that record reports
(0 succeeded, 1 failed), refuting the claim that such a record is not counted
as an error. -/
theorem c6_no_content_error_tally_cx :
    choose_content recC6.article recC6.text = Option.none ∧
    batch_update_ai_summary envC6 [recC6] Option.none = (0, 1) := by decide

/-- C6 amended: for every record whose content selection yields nothing,
processing stops before any completion call or store write, but update_ai_summary
returns False, so the batch counts the record in its failure tally (one more
failed), not as a separate skipped category. -/
theorem c6_no_content_counted_failed (env : Env) (r : Record)
    (h : choose_content r.article r.text = Option.none) :
    update_ai_summary env r =
      { calledSummarize := false, calledExtract := false, validatedInput := Option.none,
        updateIssued := Option.none, ok := false } ∧
    batch_update_ai_summary env [r] Option.none = (0, 1) := by
  have h1 : update_ai_summary env r =
      { calledSummarize := false, calledExtract := false, validatedInput := Option.none,
        updateIssued := Option.none, ok := false } := by
    unfold update_ai_summary
    cases hid : r.id.isTruthy <;> simp [hid, h]
  refine ⟨h1, ?_⟩
  simp [batch_update_ai_summary, get_news_records, tallyFold, h1]

/-- Witness for the amended C6 at a concrete no-content record. -/
theorem c6_no_content_counted_failed_witness :
    choose_content recC6.article recC6.text = Option.none ∧
    (update_ai_summary envC6 recC6 =
      { calledSummarize := false, calledExtract := false, validatedInput := Option.none,
        updateIssued := Option.none, ok := false } ∧
    batch_update_ai_summary envC6 [recC6] Option.none = (0, 1)) :=
  ⟨by decide, c6_no_content_counted_failed envC6 recC6 (by decide)⟩

/-- C7: batch ingestion never aborts early on a per-file error — for every
directory the tally is exactly (number of files whose processing succeeds,
number of files whose processing fails), every file contributes exactly one
unit, and in particular one well-formed document next to one file with invalid
syntax yields (1 succeeded, 1 failed). -/
theorem c7_ingestion_no_early_abort (files : List FileEntry) :
    process_json_files files
      = (files.countP process_one_file, files.countP (fun f => !process_one_file f)) ∧
    tallyTotal (process_json_files files) = files.length ∧
    process_json_files [goodFile, badSyntaxFile] = (1, 1) := by
  have h1 : process_json_files files = tallyFold process_one_file files := by
    cases files <;> simp [process_json_files, tallyFold]
  refine ⟨?_, ?_, ?_⟩
  · rw [h1, tallyFold_eq]
  · rw [h1, tallyFold_total]
  · rfl

/-- C8: for every positive limit n an enrichment run processes at most n
candidate records; with limit 1 and at least one pending record it processes
exactly one; an absent limit leaves the whole candidate set, and the run then
processes every pending record. -/
theorem c8_limit_bounds_run (env : Env) (db : List Record) (n : Nat) (h : 0 < n) :
    tallyTotal (batch_update_ai_summary env db (Option.some n)) ≤ n ∧
    (db ≠ [] → tallyTotal (batch_update_ai_summary env db (Option.some 1)) = 1) ∧
    get_news_records db Option.none = db ∧
    tallyTotal (batch_update_ai_summary env db Option.none) = db.length := by
  refine ⟨?_, ?_, rfl, ?_⟩
  · rw [batch_ai_total]
    have hn : n ≠ 0 := by omega
    simp [get_news_records, hn, List.length_take]
  · intro hne
    rw [batch_ai_total]
    have hlen : 0 < db.length := List.length_pos.mpr hne
    simp [get_news_records, List.length_take]
    omega
  · rw [batch_ai_total]
    rfl

/-- Witness for C8: a run with limit 1 over a store of two pending records
processes exactly one. -/
theorem c8_limit_bounds_run_witness :
    0 < 1 ∧ tallyTotal (batch_update_ai_summary envW dbW (Option.some 1)) = 1 :=
  ⟨by decide, (c8_limit_bounds_run envW dbW 1 (by decide)).2.1 (by decide)⟩

/-- C9: a limit of 0 is falsy in the guard `if limit:` and therefore applies no
limit at all — the candidate set, the whole batch outcome and the number of
records processed are identical to a run with the limit absent, covering every
pending record rather than zero. -/
theorem c9_zero_limit_unbounded (env : Env) (db : List Record) :
    get_news_records db (Option.some 0) = db ∧
    batch_update_ai_summary env db (Option.some 0) = batch_update_ai_summary env db Option.none ∧
    tallyTotal (batch_update_ai_summary env db (Option.some 0)) = db.length := by
  refine ⟨rfl, rfl, ?_⟩
  rw [batch_ai_total]
  rfl

/-- C10: in the preview-refresh path a record with id whose article and text
are both absent, blank or non-string is not skipped — the store update is still
issued with describe_text empty (null), and when the store accepts it the
record counts as succeeded: a batch over exactly that record reports
(1 succeeded, 0 failed). -/
theorem c10_blank_record_still_updated (env : PrevEnv) (r : Record)
    (hid : r.id.isTruthy = true)
    (ha : nonBlankStr r.article = false) (ht : nonBlankStr r.text = false)
    (hok : env.updateRes r.id Option.none = .ok ()) :
    (update_describe_text env r).updateIssued = Option.some Option.none ∧
    (update_describe_text env r).ok = true ∧
    batch_update_describe_text env [r] Option.none = (1, 0) := by
  have hdt : derive_preview r.article r.text = Option.none := by
    simp [derive_preview, ha, ht]
  have h1 : update_describe_text env r = { updateIssued := Option.some Option.none, ok := true } := by
    simp [update_describe_text, hid, hdt, hok]
  refine ⟨by rw [h1], by rw [h1], ?_⟩
  simp [batch_update_describe_text, get_news_records, tallyFold, h1]

/-- Witness for C10 at a record with absent article and numeric text, on a
store accepting the update. -/
theorem c10_blank_record_still_updated_witness :
    (update_describe_text prevEnvW recBlankW).updateIssued = Option.some Option.none ∧
    (update_describe_text prevEnvW recBlankW).ok = true ∧
    batch_update_describe_text prevEnvW [recBlankW] Option.none = (1, 0) :=
  c10_blank_record_still_updated prevEnvW recBlankW (by decide) (by decide) (by decide) rfl
